import Mathlib

/-!
Shallow embedding of the UI discovery and selector-generation code of this
repository (the `ElementFinder` class of the enhanced element finder script and
the `UIElementDiscovery` class of `deep-inspect.js`).

Remote automation calls (element queries, attribute reads, clicks, screenshots)
are modelled as functions that either return a value or fail with an error
message (`Except String`), mirroring a JavaScript `await` that may reject; a
JavaScript `.catch(() => d)` is the total function `catchD`, and a
`try/catch` block is an explicit `match` on the `Except` value.  Element
references handed out by the automation layer are opaque handles (`Nat`).
Read-only remote calls are modelled as pure functions of the ambient state;
state-changing calls (click, back, screenshot) thread an explicit state.
-/

/-- Drop leading whitespace characters from a character list. -/
def dropWhileWs : List Char → List Char
  | [] => []
  | c :: cs => if c.isWhitespace then dropWhileWs cs else c :: cs

/-- JavaScript `String.prototype.trim()`: strip whitespace from both ends.
(Defined over the character list so that concrete instances reduce in the
kernel.) -/
def jsTrim (s : String) : String :=
  ⟨(dropWhileWs (dropWhileWs s.data.reverse).reverse)⟩

/-- Whether the first list is an initial segment of the second. -/
def listStarts : List Char → List Char → Bool
  | [], _ => true
  | _ :: _, [] => false
  | p :: ps, c :: cs => p == c && listStarts ps cs

/-- JavaScript `s.startsWith(pre)`. -/
def jsStartsWith (s pre : String) : Bool :=
  listStarts pre.data s.data

/-- Helper for `jsLastSeg`: the characters seen since the last `'.'`,
accumulated in reverse. -/
def lastSegGo : List Char → List Char → List Char
  | [], acc => acc.reverse
  | c :: cs, acc => if c = '.' then lastSegGo cs [] else lastSegGo cs (c :: acc)

/-- JavaScript `s.split('.').pop()`: the segment after the last dot. -/
def jsLastSeg (s : String) : String :=
  ⟨lastSegGo s.data []⟩

/-- JavaScript `s.replace(/[:.]/g, '-')` as used on ISO timestamps. -/
def sanitizeStamp (s : String) : String :=
  ⟨s.data.map (fun c => if c = ':' ∨ c = '.' then '-' else c)⟩

/-- The `{x, y, width, height}` record returned by `getRect()`. -/
structure Rect2 where
  x : Int
  y : Int
  width : Int
  height : Int
deriving DecidableEq

/-- JavaScript `promise.catch(() => d)`: the value on success, `d` on rejection. -/
def catchD {α : Type} (r : Except String α) (d : α) : α :=
  match r with
  | .ok a => a
  | .error _ => d

/-- JavaScript `getRect().catch(() => ({}))`: the rectangle, or the empty
object (modelled as `none`). -/
def catchRect (r : Except String Rect2) : Option Rect2 :=
  match r with
  | .ok a => some a
  | .error _ => none

/-- The plain record built by `ElementFinder.getElementInfo`.  `inputType` and
`checked` are absent from the base record (`none`); `findInputFields` and
`findCheckboxes` attach them afterwards. -/
structure ElementInfo where
  text : String
  className : String
  resourceId : String
  contentDesc : String
  clickable : Bool
  enabled : Bool
  bounds : Option Rect2
  selectors : List String
  inputType : Option String := none
  checked : Option String := none
deriving DecidableEq

/-- The per-element getter surface of the automation session: `isDisplayed`,
`getText`, `getAttribute` and `getRect` against one element handle.  Every
call may reject. -/
structure NodeOps where
  displayed : Nat → Except String Bool
  getTextOf : Nat → Except String String
  getAttr : Nat → String → Except String String
  getRectOf : Nat → Except String Rect2

/-- The remote-session surface used by `ElementFinder`: `driver.$$` (a
structural query returning element handles) plus the per-element getters. -/
structure EFSession where
  query : String → Except String (List Nat)
  node : NodeOps

/-- `ElementFinder.generateSelectors(text, className, resourceId, contentDesc)`:
an identifier tier when `resourceId` is truthy, a text tier when `text` and its
trim are truthy, a content-description tier when `contentDesc` and its trim are
truthy; each tier is one XPath string followed by one UiSelector string. -/
def generateSelectors (text className resourceId contentDesc : String) : List String :=
  let _ := className
  (if resourceId ≠ "" then
    ["//*[@resource-id=\"" ++ resourceId ++ "\"]",
     "android=new UiSelector().resourceId(\"" ++ resourceId ++ "\")"]
   else []) ++
  (if text ≠ "" ∧ jsTrim text ≠ "" then
    ["//*[@text=\"" ++ jsTrim text ++ "\"]",
     "android=new UiSelector().text(\"" ++ jsTrim text ++ "\")"]
   else []) ++
  (if contentDesc ≠ "" ∧ jsTrim contentDesc ≠ "" then
    ["//*[@content-desc=\"" ++ jsTrim contentDesc ++ "\"]",
     "android=new UiSelector().description(\"" ++ jsTrim contentDesc ++ "\")"]
   else [])

/-- `ElementFinder.getElementInfo(element)`: each attribute read carries its own
`.catch` with the documented default (`''` for strings, `'false'` for
`clickable`, `'true'` for `enabled`, the empty object for `bounds`), so the
outer `try/catch` of the source is unreachable in this model and the function
is total ("never raises"). -/
def getElementInfo (nd : NodeOps) (h : Nat) : ElementInfo :=
  let text := catchD (nd.getTextOf h) ""
  let className := catchD (nd.getAttr h ("class")) ""
  let resourceId := catchD (nd.getAttr h ("resource-id")) ""
  let contentDesc := catchD (nd.getAttr h ("content-desc")) ""
  let clickable := catchD (nd.getAttr h ("clickable")) "false"
  let enabled := catchD (nd.getAttr h ("enabled")) "true"
  let bounds := catchRect (nd.getRectOf h)
  { text := jsTrim text
    className := className
    resourceId := resourceId
    contentDesc := contentDesc
    clickable := clickable == "true"
    enabled := enabled == "true"
    bounds := bounds
    selectors := generateSelectors text className resourceId contentDesc }

/-- `ElementFinder.isDuplicate(array, newItem)`: a linear `some` over the
accumulated list comparing `resourceId`, `text` and `className`. -/
def isDuplicate (arr : List ElementInfo) (newItem : ElementInfo) : Bool :=
  arr.any (fun item =>
    item.resourceId == newItem.resourceId &&
    item.text == newItem.text &&
    item.className == newItem.className)

/-- The `if (!this.isDuplicate(list, info)) list.push(info)` pattern used by
every finder. -/
def addIfNew (arr : List ElementInfo) (info : ElementInfo) : List ElementInfo :=
  if isDuplicate arr info then arr else arr ++ [info]

/-- The element loop shared by `findButtons`, `findInputFields`,
`findImageElements`, `findListElements` and `findCheckboxes`: the whole loop
for one selector sits inside one `try`, so an `isDisplayed()` rejection aborts
the rest of that selector's elements (the accumulator keeps what was already
pushed) while the caller moves on to the next selector.  `decorate` is the
per-kind field attached after `getElementInfo` and before the duplicate check
(`inputType`, `checked`, or nothing). -/
def collectSel (nd : NodeOps) (decorate : Nat → ElementInfo → ElementInfo) :
    List ElementInfo → List Nat → List ElementInfo
  | acc, [] => acc
  | acc, h :: rest =>
    match nd.displayed h with
    | .error _ => acc
    | .ok false => collectSel nd decorate acc rest
    | .ok true => collectSel nd decorate (addIfNew acc (decorate h (getElementInfo nd h))) rest

/-- The selector loop shared by the same finders: each selector's query runs in
its own `try`; a rejected query is skipped (`// Continue with next selector`). -/
def runKind (ses : EFSession) (decorate : Nat → ElementInfo → ElementInfo)
    (sels : List String) : List ElementInfo :=
  sels.foldl
    (fun acc sel =>
      match ses.query sel with
      | .error _ => acc
      | .ok hs => collectSel ses.node decorate acc hs)
    []

/-- The four query expressions tried by `ElementFinder.findButtons`. -/
def buttonSelectors : List String :=
  ["//android.widget.Button",
   "//*[@clickable=\"true\" and @text]",
   "//*[contains(@resource-id, \"button\")]",
   "//*[contains(@resource-id, \"btn\")]"]

/-- The three query expressions tried by `ElementFinder.findInputFields`. -/
def inputSelectors : List String :=
  ["//android.widget.EditText",
   "//*[contains(@resource-id, \"edit\")]",
   "//*[contains(@resource-id, \"input\")]"]

/-- The two query expressions tried by `ElementFinder.findImageElements`. -/
def imageSelectors : List String :=
  ["//android.widget.ImageView",
   "//android.widget.ImageButton"]

/-- The three query expressions tried by `ElementFinder.findListElements`. -/
def listSelectors : List String :=
  ["//android.widget.ListView",
   "//android.widget.RecyclerView",
   "//androidx.recyclerview.widget.RecyclerView"]

/-- The two query expressions tried by `ElementFinder.findCheckboxes`. -/
def checkboxSelectors : List String :=
  ["//android.widget.CheckBox",
   "//*[@checkable=\"true\"]"]

/-- `ElementFinder.findButtons()`. -/
def findButtons (ses : EFSession) : List ElementInfo :=
  runKind ses (fun _ info => info) buttonSelectors

/-- `ElementFinder.findInputFields()`: attaches
`info.inputType = getAttribute('android:inputType').catch(() => 'text')`. -/
def findInputFields (ses : EFSession) : List ElementInfo :=
  runKind ses
    (fun h info => { info with inputType := some (catchD (ses.node.getAttr h ("android:inputType")) "text") })
    inputSelectors

/-- `ElementFinder.findTextElements()`.  Its single `driver.$$` query is NOT
inside any `try`, so a rejected query propagates to the caller; the per-element
`try` only skips individual elements. -/
def findTextElements (ses : EFSession) : Except String (List ElementInfo) :=
  match ses.query ("//android.widget.TextView") with
  | .error e => .error e
  | .ok hs =>
    .ok ((hs.take 20).foldl
      (fun acc h =>
        match ses.node.displayed h with
        | .error _ => acc
        | .ok false => acc
        | .ok true =>
          let info := getElementInfo ses.node h
          if info.text ≠ "" ∧ jsTrim info.text ≠ "" then addIfNew acc info else acc)
      [])

/-- `ElementFinder.findImageElements()`. -/
def findImageElements (ses : EFSession) : List ElementInfo :=
  runKind ses (fun _ info => info) imageSelectors

/-- `ElementFinder.findListElements()`. -/
def findListElements (ses : EFSession) : List ElementInfo :=
  runKind ses (fun _ info => info) listSelectors

/-- `ElementFinder.findCheckboxes()`: attaches
`info.checked = getAttribute('checked').catch(() => 'false')`. -/
def findCheckboxes (ses : EFSession) : List ElementInfo :=
  runKind ses
    (fun h info => { info with checked := some (catchD (ses.node.getAttr h ("checked")) "false") })
    checkboxSelectors

/-- One element step of `ElementFinder.findCustomElements()`: its
`resource-id` and `class` reads have no `.catch`, so a rejection skips the
element via the per-element `try`. -/
def customStep (nd : NodeOps) (acc : List ElementInfo) (h : Nat) : List ElementInfo :=
  match nd.displayed h with
  | .error _ => acc
  | .ok false => acc
  | .ok true =>
    match nd.getAttr h ("resource-id") with
    | .error _ => acc
    | .ok rid =>
      match nd.getAttr h ("class") with
      | .error _ => acc
      | .ok cls =>
        if rid ≠ "" ∧ jsStartsWith cls "android.widget." = false ∧
            jsStartsWith cls "android.view." = false then
          addIfNew acc (getElementInfo nd h)
        else acc

/-- `ElementFinder.findCustomElements()`: the whole body is wrapped in a `try`,
so a rejected `//*[@resource-id]` query leaves the list empty. -/
def findCustomElements (ses : EFSession) : List ElementInfo :=
  match ses.query ("//*[@resource-id]") with
  | .error _ => []
  | .ok hs => (hs.take 15).foldl (customStep ses.node) []

/-- The `this.foundElements` record (only the kinds the finder ever fills). -/
structure FoundElements where
  buttons : List ElementInfo
  inputs : List ElementInfo
  texts : List ElementInfo
  images : List ElementInfo
  lists : List ElementInfo
  checkboxes : List ElementInfo
  custom : List ElementInfo
deriving DecidableEq

/-- `ElementFinder.findAllElementTypes()`: runs the seven finders in order.
`findTextElements`'s unguarded query failure propagates (aborting the image,
list, checkbox and custom passes); every other finder is total. -/
def findAllElementTypes (ses : EFSession) : Except String FoundElements :=
  let buttons := findButtons ses
  let inputs := findInputFields ses
  match findTextElements ses with
  | .error e => .error e
  | .ok texts =>
    .ok { buttons := buttons
          inputs := inputs
          texts := texts
          images := findImageElements ses
          lists := findListElements ses
          checkboxes := findCheckboxes ses
          custom := findCustomElements ses }

/-- `query` overridden to reject on a fixed set of selectors, unchanged
elsewhere: the shape of a session in which one kind's structural queries throw. -/
def failQueries (ses : EFSession) (bad : List String) (e : String) : EFSession :=
  { ses with query := fun q => if q ∈ bad then .error e else ses.query q }

/-- `UIElementDiscovery.generateSelector(tagName, text, contentDesc,
resourceId)` from `deep-inspect.js`: same three tiers in the same order as
`generateSelectors`, but each tier lists its UiSelector string before its
XPath string; `tagName` is accepted and unused. -/
def generateSelector (tagName text contentDesc resourceId : String) : List String :=
  let _ := tagName
  (if resourceId ≠ "" then
    ["android=new UiSelector().resourceId(\"" ++ resourceId ++ "\")",
     "//*[@resource-id=\"" ++ resourceId ++ "\"]"]
   else []) ++
  (if text ≠ "" ∧ jsTrim text ≠ "" then
    ["android=new UiSelector().text(\"" ++ jsTrim text ++ "\")",
     "//*[@text=\"" ++ jsTrim text ++ "\"]"]
   else []) ++
  (if contentDesc ≠ "" ∧ jsTrim contentDesc ≠ "" then
    ["android=new UiSelector().description(\"" ++ jsTrim contentDesc ++ "\")",
     "//*[@content-desc=\"" ++ jsTrim contentDesc ++ "\"]"]
   else [])

/-- `UIElementDiscovery.generateInputSelector(hint, resourceId, index)`: an
identifier tier when `resourceId` is truthy, a hint tier when `hint` and its
trim are truthy, and then — unconditionally — the positional locator
`(//android.widget.EditText)[index + 1]`. -/
def generateInputSelector (hint resourceId : String) (index : Nat) : List String :=
  (if resourceId ≠ "" then
    ["android=new UiSelector().resourceId(\"" ++ resourceId ++ "\")",
     "//*[@resource-id=\"" ++ resourceId ++ "\"]"]
   else []) ++
  (if hint ≠ "" ∧ jsTrim hint ≠ "" then
    ["android=new UiSelector().textContains(\"" ++ jsTrim hint ++ "\")",
     "//android.widget.EditText[@hint=\"" ++ jsTrim hint ++ "\"]"]
   else []) ++
  ["(//android.widget.EditText)[" ++ toString (index + 1) ++ "]"]

/-- The `{width, height}` record returned by `getWindowSize()`. -/
structure WinSize where
  width : Int
  height : Int
deriving DecidableEq

/-- The record built by `UIElementDiscovery.getCurrentScreenInfo`. -/
structure ScreenInfo where
  activity : String
  package : String
  pageSource : String
  windowSize : WinSize
  timestamp : String
deriving DecidableEq

/-- One entry of `elements.clickable` in `discoverElementsOnCurrentScreen`. -/
structure ClickInfo where
  index : Nat
  text : String
  tagName : String
  contentDesc : String
  resourceId : String
  bounds : Option Rect2
  selectors : List String
deriving DecidableEq

/-- One entry of `elements.inputs`. -/
structure InputInfo where
  index : Nat
  text : String
  hint : String
  resourceId : String
  bounds : Option Rect2
  selectors : List String
deriving DecidableEq

/-- One entry of `elements.texts`. -/
structure TextInfo where
  index : Nat
  text : String
  resourceId : String
  bounds : Option Rect2
deriving DecidableEq

/-- One entry of `elements.scrollable`. -/
structure ScrollInfo where
  index : Nat
  tagName : String
  resourceId : String
  bounds : Option Rect2
deriving DecidableEq

/-- The `elements` record of one screen (`buttons` is declared in the source
and never filled). -/
structure DiscElems where
  clickable : List ClickInfo := []
  inputs : List InputInfo := []
  texts : List TextInfo := []
  buttons : List ClickInfo := []
  scrollable : List ScrollInfo := []
deriving DecidableEq

/-- The record returned by `discoverElementsOnCurrentScreen`: screen info,
the per-kind element lists, and the screenshot filename (or `null`). -/
structure DiscScreen where
  screenInfo : ScreenInfo
  elements : DiscElems
  screenshot : Option String
deriving DecidableEq

/-- The remote-session surface used by `UIElementDiscovery`, over an abstract
device/filesystem state `σ`.  Read-style calls are pure in `σ`; `click`,
`back` and `saveScreenshot` may change it; `settle` is the fixed `wait`. -/
structure DIOps (σ : Type) where
  getActivity : σ → Except String String
  getPackage : σ → Except String String
  getPageSource : σ → Except String String
  getWindowSize : σ → Except String WinSize
  now : σ → String
  query : String → σ → Except String (List Nat)
  displayed : Nat → σ → Except String Bool
  getTextOf : Nat → σ → Except String String
  getTagName : Nat → σ → Except String String
  getRectOf : Nat → σ → Except String Rect2
  getAttr : Nat → String → σ → Except String String
  saveShot : String → σ → Except String σ
  findOne : String → σ → Except String Nat
  clickEl : Nat → σ → Except String σ
  back : σ → Except String σ
  settle : Nat → σ → σ

/-- `UIElementDiscovery.getCurrentScreenInfo()`: four sequential reads inside a
`try` whose `catch` returns `null`; any rejection yields `none`. -/
def getCurrentScreenInfo {σ : Type} (ops : DIOps σ) (s : σ) : Option ScreenInfo :=
  match ops.getActivity s with
  | .error _ => none
  | .ok activity =>
    match ops.getPackage s with
    | .error _ => none
    | .ok pkg =>
      match ops.getPageSource s with
      | .error _ => none
      | .ok src =>
        match ops.getWindowSize s with
        | .error _ => none
        | .ok ws =>
          some { activity := activity, package := pkg, pageSource := src,
                 windowSize := ws, timestamp := ops.now s }

/-- The clickable-element loop of `discoverElementsOnCurrentScreen`: the
per-element `try` skips an element whose `isDisplayed()` rejects; every other
read has its own `.catch`.  The untrimmed `text` is passed to
`generateSelector`, while the stored `text` field is trimmed. -/
def collectClickable {σ : Type} (ops : DIOps σ) (s : σ) : Nat → List Nat → List ClickInfo
  | _, [] => []
  | i, h :: rest =>
    match ops.displayed h s with
    | .error _ => collectClickable ops s (i + 1) rest
    | .ok false => collectClickable ops s (i + 1) rest
    | .ok true =>
      let text := catchD (ops.getTextOf h s) ""
      let tagName := catchD (ops.getTagName h s) ""
      let bounds := catchRect (ops.getRectOf h s)
      let contentDesc := catchD (ops.getAttr h ("content-desc") s) ""
      let resourceId := catchD (ops.getAttr h ("resource-id") s) ""
      { index := i, text := jsTrim text, tagName := tagName,
        contentDesc := contentDesc, resourceId := resourceId, bounds := bounds,
        selectors := generateSelector tagName text contentDesc resourceId }
        :: collectClickable ops s (i + 1) rest

/-- The input-element loop of `discoverElementsOnCurrentScreen`. -/
def collectInputs {σ : Type} (ops : DIOps σ) (s : σ) : Nat → List Nat → List InputInfo
  | _, [] => []
  | i, h :: rest =>
    match ops.displayed h s with
    | .error _ => collectInputs ops s (i + 1) rest
    | .ok false => collectInputs ops s (i + 1) rest
    | .ok true =>
      let text := catchD (ops.getTextOf h s) ""
      let hint := catchD (ops.getAttr h ("hint") s) ""
      let resourceId := catchD (ops.getAttr h ("resource-id") s) ""
      let bounds := catchRect (ops.getRectOf h s)
      { index := i, text := jsTrim text, hint := hint, resourceId := resourceId,
        bounds := bounds, selectors := generateInputSelector hint resourceId i }
        :: collectInputs ops s (i + 1) rest

/-- The text-element loop of `discoverElementsOnCurrentScreen` (the caller
truncates its input at 20): keeps only elements whose text is truthy and has
truthy trim. -/
def collectTexts {σ : Type} (ops : DIOps σ) (s : σ) : Nat → List Nat → List TextInfo
  | _, [] => []
  | i, h :: rest =>
    match ops.displayed h s with
    | .error _ => collectTexts ops s (i + 1) rest
    | .ok false => collectTexts ops s (i + 1) rest
    | .ok true =>
      let text := catchD (ops.getTextOf h s) ""
      let resourceId := catchD (ops.getAttr h ("resource-id") s) ""
      let bounds := catchRect (ops.getRectOf h s)
      if text ≠ "" ∧ jsTrim text ≠ "" then
        { index := i, text := jsTrim text, resourceId := resourceId, bounds := bounds }
          :: collectTexts ops s (i + 1) rest
      else collectTexts ops s (i + 1) rest

/-- The scrollable-element loop of `discoverElementsOnCurrentScreen`. -/
def collectScroll {σ : Type} (ops : DIOps σ) (s : σ) : Nat → List Nat → List ScrollInfo
  | _, [] => []
  | i, h :: rest =>
    match ops.displayed h s with
    | .error _ => collectScroll ops s (i + 1) rest
    | .ok false => collectScroll ops s (i + 1) rest
    | .ok true =>
      let tagName := catchD (ops.getTagName h s) ""
      let resourceId := catchD (ops.getAttr h ("resource-id") s) ""
      let bounds := catchRect (ops.getRectOf h s)
      { index := i, tagName := tagName, resourceId := resourceId, bounds := bounds }
        :: collectScroll ops s (i + 1) rest

/-- The element-collection block of `discoverElementsOnCurrentScreen`: the four
kind queries run sequentially inside ONE `try`, so a rejected query keeps what
earlier kinds already collected and skips the remaining kinds of this screen. -/
def discoverElems {σ : Type} (ops : DIOps σ) (s : σ) : DiscElems :=
  match ops.query ("//*[@clickable=\"true\"]") s with
  | .error _ => {}
  | .ok chs =>
    let cl := collectClickable ops s 0 chs
    match ops.query ("//android.widget.EditText") s with
    | .error _ => { clickable := cl }
    | .ok ihs =>
      let ins := collectInputs ops s 0 ihs
      match ops.query ("//android.widget.TextView") s with
      | .error _ => { clickable := cl, inputs := ins }
      | .ok ths =>
        let ts := collectTexts ops s 0 (ths.take 20)
        match ops.query ("//*[@scrollable=\"true\"]") s with
        | .error _ => { clickable := cl, inputs := ins, texts := ts }
        | .ok shs =>
          { clickable := cl, inputs := ins, texts := ts,
            scrollable := collectScroll ops s 0 shs }

/-- `UIElementDiscovery.takeScreenshot(name)`: builds
`name_<sanitized timestamp>.png` and saves it; its internal `catch` turns a
rejected save into `null` with the state unchanged. -/
def takeScreenshot {σ : Type} (ops : DIOps σ) (s : σ) (name : String) : Option String × σ :=
  let filename := name ++ "_" ++ sanitizeStamp (ops.now s) ++ ".png"
  match ops.saveShot ("./screenshots/" ++ filename) s with
  | .error _ => (none, s)
  | .ok s1 => (some filename, s1)

/-- `UIElementDiscovery.discoverElementsOnCurrentScreen()`: `null` when the
screen info is unavailable; otherwise the element lists plus the screenshot
reference (the screenshot is taken last, named after the last dot-segment of
the activity). -/
def discoverCur {σ : Type} (ops : DIOps σ) (s : σ) : Option DiscScreen × σ :=
  match getCurrentScreenInfo ops s with
  | none => (none, s)
  | some info =>
    let elems := discoverElems ops s
    let (shot, s1) := takeScreenshot ops s ("screen_" ++ jsLastSeg info.activity)
    (some { screenInfo := info, elements := elems, screenshot := shot }, s1)

/-- The XPath-selector retry loop of `exploreClickableElements`: each attempt
sits in its own `try`; a rejected `driver.$` keeps the previous
`targetElement`, a successful one overwrites it (even if `isDisplayed()` then
returns false or rejects), and a displayed element breaks the loop. -/
def tryXpathSelectors {σ : Type} (ops : DIOps σ) (s : σ) :
    List String → Option Nat → Option Nat
  | [], acc => acc
  | q :: rest, acc =>
    match ops.findOne q s with
    | .error _ => tryXpathSelectors ops s rest acc
    | .ok t =>
      match ops.displayed t s with
      | .ok true => some t
      | .ok false => tryXpathSelectors ops s rest (some t)
      | .error _ => tryXpathSelectors ops s rest (some t)

/-- The `if (!targetElement)` fallback of `exploreClickableElements`: one
`driver.$` by resource id, text or content description, with NO local `try` —
a rejection here propagates to the per-descriptor `catch`. -/
def fallbackLocate {σ : Type} (ops : DIOps σ) (s : σ) (el : ClickInfo) :
    Except String (Option Nat) :=
  if el.resourceId ≠ "" then
    (ops.findOne ("//*[@resource-id=\"" ++ el.resourceId ++ "\"]") s).map some
  else if el.text ≠ "" then
    (ops.findOne ("//*[@text=\"" ++ el.text ++ "\"]") s).map some
  else if el.contentDesc ≠ "" then
    (ops.findOne ("//*[@content-desc=\"" ++ el.contentDesc ++ "\"]") s).map some
  else .ok none

/-- The `if (targetElement)` block: its inner `try` catches a rejection of
`isDisplayed()`, `click()` or `back()` (`clickError`); the new screen, if
snapshotted before `back()` rejects, is kept. -/
def interact {σ : Type} (ops : DIOps σ) (t : Nat) (s : σ) : Option DiscScreen × σ :=
  match ops.displayed t s with
  | .error _ => (none, s)
  | .ok false => (none, s)
  | .ok true =>
    match ops.clickEl t s with
    | .error _ => (none, s)
    | .ok s1 =>
      let s2 := ops.settle 3000 s1
      let (newScr, s3) := discoverCur ops s2
      match ops.back s3 with
      | .error _ => (newScr, s3)
      | .ok s4 => (newScr, ops.settle 2000 s4)

/-- The body of the per-descriptor `try` of `exploreClickableElements`:
XPath retries, then the fallback locate (whose rejection escapes as
`.error`), then the click interaction. -/
def attemptClickBody {σ : Type} (ops : DIOps σ) (el : ClickInfo) (s : σ) :
    Except String (Option DiscScreen × σ) :=
  match tryXpathSelectors ops s (el.selectors.filter (fun q => jsStartsWith q "//")) none with
  | some t => .ok (interact ops t s)
  | none =>
    match fallbackLocate ops s el with
    | .error e => .error e
    | .ok none => .ok (none, s)
    | .ok (some t) => .ok (interact ops t s)

/-- One full per-descriptor attempt: the surrounding `catch` turns any escaped
rejection into "log and continue" with the state unchanged. -/
def attemptClick {σ : Type} (ops : DIOps σ) (el : ClickInfo) (s : σ) :
    Option DiscScreen × σ :=
  match attemptClickBody ops el s with
  | .ok r => r
  | .error _ => (none, s)

/-- The `for` loop of `exploreClickableElements` over the (already truncated)
candidate list: a descriptor with falsy `text` AND falsy `contentDesc` is
skipped outright; otherwise its attempt may contribute one new screen. -/
def exploreLoop {σ : Type} (ops : DIOps σ) : List ClickInfo → σ → List DiscScreen × σ
  | [], s => ([], s)
  | el :: rest, s =>
    if el.text ≠ "" ∨ el.contentDesc ≠ "" then
      match attemptClick ops el s with
      | (none, s1) => exploreLoop ops rest s1
      | (some scr, s1) =>
        let (l, s2) := exploreLoop ops rest s1
        (scr :: l, s2)
    else exploreLoop ops rest s

/-- `UIElementDiscovery.exploreClickableElements()`: snapshot the current
screen; if that yields `null`, stop with nothing discovered; otherwise push the
main screen and run the loop over the first `Math.min(length, 5)` clickable
descriptors.  The returned list is `this.discoveredScreens` as pushed during
the run. -/
def exploreClickableElements {σ : Type} (ops : DIOps σ) (s : σ) : List DiscScreen × σ :=
  match discoverCur ops s with
  | (none, s1) => ([], s1)
  | (some main, s1) =>
    let (l, s2) := exploreLoop ops (main.elements.clickable.take 5) s1
    (main :: l, s2)

/-- A mock node whose attribute getters all reject. -/
def allFailNode : NodeOps :=
  { displayed := fun _ => .error "stale element"
    getTextOf := fun _ => .error "stale element"
    getAttr := fun _ _ => .error "stale element"
    getRectOf := fun _ => .error "stale element" }

/-- A session in which only the text-kind `TextView` query rejects; every other
query answers with an empty result list and element getters never reject. -/
def textQueryFailSes : EFSession :=
  { query := fun q => if q = "//android.widget.TextView" then .error "unsupported locator" else .ok []
    node :=
      { displayed := fun _ => .ok true
        getTextOf := fun _ => .ok ""
        getAttr := fun _ _ => .ok ""
        getRectOf := fun _ => .error "none" } }

/-- Device ops for a screen whose info reads succeed, whose queries all return
no elements, and whose screenshot save (and every action) rejects. -/
def shotFailOps : DIOps Unit :=
  { getActivity := fun _ => .ok "com.eeki.app.MainActivity"
    getPackage := fun _ => .ok "com.eeki.app"
    getPageSource := fun _ => .ok "<hierarchy/>"
    getWindowSize := fun _ => .ok { width := 1080, height := 1920 }
    now := fun _ => "2025-01-01T00:00:00.000Z"
    query := fun _ _ => .ok []
    displayed := fun _ _ => .error "stale"
    getTextOf := fun _ _ => .error "stale"
    getTagName := fun _ _ => .error "stale"
    getRectOf := fun _ _ => .error "stale"
    getAttr := fun _ _ _ => .error "stale"
    saveShot := fun _ _ => .error "disk full"
    findOne := fun _ _ => .error "no such element"
    clickEl := fun _ _ => .error "stale"
    back := fun _ => .error "stale"
    settle := fun _ s => s }

/-- The screen info that `shotFailOps` reports. -/
def shotFailInfo : ScreenInfo :=
  { activity := "com.eeki.app.MainActivity", package := "com.eeki.app",
    pageSource := "<hierarchy/>", windowSize := { width := 1080, height := 1920 },
    timestamp := "2025-01-01T00:00:00.000Z" }

/-- Device ops exposing exactly one displayed `EditText` with a hint and no
resource id. -/
def oneInputOps : DIOps Unit :=
  { getActivity := fun _ => .ok "com.eeki.app.FormActivity"
    getPackage := fun _ => .ok "com.eeki.app"
    getPageSource := fun _ => .ok "<hierarchy/>"
    getWindowSize := fun _ => .ok { width := 1080, height := 1920 }
    now := fun _ => "2025-01-01T00:00:00.000Z"
    query := fun q _ => if q = "//android.widget.EditText" then .ok [0] else .ok []
    displayed := fun _ _ => .ok true
    getTextOf := fun _ _ => .ok ""
    getTagName := fun _ _ => .ok "android.widget.EditText"
    getRectOf := fun _ _ => .error "none"
    getAttr := fun _ a _ => if a = "hint" then .ok "Enter name" else .ok ""
    saveShot := fun _ s => .ok s
    findOne := fun _ _ => .error "no such element"
    clickEl := fun _ s => .ok s
    back := fun s => .ok s
    settle := fun _ s => s }

/-- The input descriptor that `oneInputOps` yields. -/
def oneInputInfo : InputInfo :=
  { index := 0, text := "", hint := "Enter name", resourceId := "", bounds := none,
    selectors := generateInputSelector "Enter name" "" 0 }

/-- Concrete descriptor used to exercise the duplicate filter. -/
def dupBase : ElementInfo :=
  { text := "OK", className := "android.widget.Button", resourceId := "app:id/ok",
    contentDesc := "", clickable := true, enabled := true,
    bounds := some { x := 0, y := 0, width := 10, height := 10 }, selectors := [] }

/-- `dupBase` after a re-layout: same identity key, different bounds. -/
def dupMoved : ElementInfo :=
  { dupBase with bounds := some { x := 5, y := 5, width := 20, height := 20 } }

/-- A trimmed string is empty whenever the original is. -/
theorem jsTrim_ne (t : String) (h : jsTrim t ≠ "") : t ≠ "" := by
  intro ht
  subst ht
  exact h rfl

/-- C1 (counterexample): on a node whose getters all reject, `getElementInfo`
returns `enabled := true` — not the claimed false/unknown default — because the
source's catch default for `enabled` is the string `'true'`. -/
theorem getElementInfo_allFail_enabled_true :
    getElementInfo allFailNode 0 =
      { text := "", className := "", resourceId := "", contentDesc := "",
        clickable := false, enabled := true, bounds := none, selectors := [] } ∧
    (getElementInfo allFailNode 0).enabled ≠ false := by
  exact ⟨by decide, by decide⟩

/-- C1 (amended): for every node whose attribute getters all fail,
`getElementInfo` still returns a well-formed descriptor without raising, with
`text`, `resourceId`, `contentDesc` and `className` empty, `bounds` the empty
record, `selectors` empty, `clickable` false — and `enabled` defaulting to
TRUE (the code's catch default is the string `'true'`); `checked` is not part
of the base extraction at all. -/
theorem getElementInfo_total_failure_defaults (nd : NodeOps) (h : Nat)
    (htext : ∃ e, nd.getTextOf h = .error e)
    (hattr : ∀ a, ∃ e, nd.getAttr h a = .error e)
    (hrect : ∃ e, nd.getRectOf h = .error e) :
    getElementInfo nd h =
      { text := "", className := "", resourceId := "", contentDesc := "",
        clickable := false, enabled := true, bounds := none, selectors := [] } := by
  obtain ⟨e1, h1⟩ := htext
  obtain ⟨e2, h2⟩ := hattr "class"
  obtain ⟨e3, h3⟩ := hattr "resource-id"
  obtain ⟨e4, h4⟩ := hattr "content-desc"
  obtain ⟨e5, h5⟩ := hattr "clickable"
  obtain ⟨e6, h6⟩ := hattr "enabled"
  obtain ⟨e7, h7⟩ := hrect
  simp [getElementInfo, catchD, catchRect, h1, h2, h3, h4, h5, h6, h7,
    generateSelectors, jsTrim, dropWhileWs]

/-- C1 (witness): the amended theorem applied to the all-failing mock node. -/
theorem getElementInfo_total_failure_defaults_witness :
    ((∃ e, allFailNode.getTextOf 0 = .error e) ∧
      (∀ a, ∃ e, allFailNode.getAttr 0 a = .error e) ∧
      (∃ e, allFailNode.getRectOf 0 = .error e)) ∧
    getElementInfo allFailNode 0 =
      { text := "", className := "", resourceId := "", contentDesc := "",
        clickable := false, enabled := true, bounds := none, selectors := [] } :=
  ⟨⟨⟨"stale element", rfl⟩, fun _ => ⟨"stale element", rfl⟩, ⟨"stale element", rfl⟩⟩,
    getElementInfo_total_failure_defaults allFailNode 0 ⟨"stale element", rfl⟩
      (fun _ => ⟨"stale element", rfl⟩) ⟨"stale element", rfl⟩⟩

/-- C2 (counterexample): a whitespace-only resource id trims to empty, yet the
identifier tier is still emitted — the source checks only truthiness of the
raw `resourceId`, not its trim — refuting "each tier included only when its
attribute is non-empty after trimming". -/
theorem generateSelectors_untrimmed_id_counterexample :
    jsTrim " " = "" ∧
    generateSelectors "" "" " " "" =
      ["//*[@resource-id=\" \"]", "android=new UiSelector().resourceId(\" \")"] ∧
    generateSelectors "" "" " " "" ≠ [] := by
  exact ⟨by decide, by decide, by decide⟩

/-- C2 (amended): for every descriptor with non-empty identifier the first
synthesized selector is identifier-based (in both `generateSelectors` of the
element finder and `generateSelector` of `deep-inspect.js`), and the tiers
appear in the fixed order identifier, exact text, accessibility label — the
text and label tiers included exactly when non-empty after trimming, while the
identifier tier requires only a non-empty (untrimmed) identifier. -/
theorem selector_tiers_ordered (t c d tag r : String) (hr : r ≠ "") :
    (generateSelectors t c r d).head? = some ("//*[@resource-id=\"" ++ r ++ "\"]") ∧
    (generateSelector tag t d r).head? =
      some ("android=new UiSelector().resourceId(\"" ++ r ++ "\")") ∧
    generateSelectors t c r d =
      ["//*[@resource-id=\"" ++ r ++ "\"]",
       "android=new UiSelector().resourceId(\"" ++ r ++ "\")"] ++
      (if jsTrim t ≠ "" then
        ["//*[@text=\"" ++ jsTrim t ++ "\"]",
         "android=new UiSelector().text(\"" ++ jsTrim t ++ "\")"]
       else []) ++
      (if jsTrim d ≠ "" then
        ["//*[@content-desc=\"" ++ jsTrim d ++ "\"]",
         "android=new UiSelector().description(\"" ++ jsTrim d ++ "\")"]
       else []) := by
  have et : (t ≠ "" ∧ jsTrim t ≠ "") ↔ jsTrim t ≠ "" :=
    ⟨fun x => x.2, fun x => ⟨jsTrim_ne t x, x⟩⟩
  have ed : (d ≠ "" ∧ jsTrim d ≠ "") ↔ jsTrim d ≠ "" :=
    ⟨fun x => x.2, fun x => ⟨jsTrim_ne d x, x⟩⟩
  refine ⟨?_, ?_, ?_⟩
  · simp [generateSelectors, hr, et, ed]
  · simp [generateSelector, hr, et, ed]
  · simp [generateSelectors, hr, et, ed]

/-- C2 (witness): the amended ordering theorem at a concrete descriptor. -/
theorem selector_tiers_ordered_witness :
    ("app:id/go" : String) ≠ "" ∧
    (generateSelectors " Go " "android.widget.Button" "app:id/go" "").head? =
      some "//*[@resource-id=\"app:id/go\"]" :=
  ⟨by decide,
    (selector_tiers_ordered " Go " "android.widget.Button" "" "Button" "app:id/go"
      (by decide)).1⟩

/-- C3: a candidate is dropped exactly when some accumulated descriptor agrees
with it on all three of resource id, text and class name; the bounds and the
enabled/clickable flags play no role; and appending a key-equal candidate
leaves the list unchanged (only the first is kept). -/
theorem isDuplicate_key_iff (arr : List ElementInfo) (c : ElementInfo) :
    (isDuplicate arr c = true ↔
      ∃ d ∈ arr, d.resourceId = c.resourceId ∧ d.text = c.text ∧ d.className = c.className) ∧
    (∀ b e cl, isDuplicate arr { c with bounds := b, enabled := e, clickable := cl } =
      isDuplicate arr c) ∧
    (∀ d ∈ arr, d.resourceId = c.resourceId → d.text = c.text → d.className = c.className →
      addIfNew arr c = arr) := by
  refine ⟨?_, fun _ _ _ => rfl, ?_⟩
  · simp [isDuplicate, List.any_eq_true, and_assoc]
  · intro d hd h1 h2 h3
    have hdup : isDuplicate arr c = true := by
      simp only [isDuplicate, List.any_eq_true]
      exact ⟨d, hd, by simp [h1, h2, h3]⟩
    simp [addIfNew, hdup]

/-- C3 (witness): two descriptors equal on the key but with different bounds —
the second is dropped. -/
theorem isDuplicate_key_iff_witness :
    (dupBase ∈ [dupBase] ∧ dupBase.resourceId = dupMoved.resourceId ∧
      dupBase.text = dupMoved.text ∧ dupBase.className = dupMoved.className ∧
      dupBase.bounds ≠ dupMoved.bounds) ∧
    addIfNew [dupBase] dupMoved = [dupBase] :=
  ⟨⟨by decide, by decide, by decide, by decide, by decide⟩,
    (isDuplicate_key_iff [dupBase] dupMoved).2.2 dupBase (by decide) rfl rfl rfl⟩

/-- C4 (counterexample): an input descriptor carrying both a resource id and a
hint still gets the positional locator — the source appends it
unconditionally — refuting "a descriptor that has any of those attributes gets
no positional selector". -/
theorem generateInputSelector_positional_counterexample :
    ("app:id/name" : String) ≠ "" ∧ jsTrim "Name" ≠ "" ∧
    "(//android.widget.EditText)[1]" ∈ generateInputSelector "Name" "app:id/name" 0 := by
  exact ⟨by decide, by decide, by decide⟩

/-- C4 (amended): for every input descriptor the selectors are the identifier
tier (when the id is non-empty), then the hint tier (when the hint trims
non-empty), and then — always, as the last entry — the positional locator
`(//android.widget.EditText)[index + 1]`, regardless of the higher tiers. -/
theorem generateInputSelector_tiers (hint rid : String) (i : Nat) :
    generateInputSelector hint rid i =
      (if rid ≠ "" then
        ["android=new UiSelector().resourceId(\"" ++ rid ++ "\")",
         "//*[@resource-id=\"" ++ rid ++ "\"]"]
       else []) ++
      (if jsTrim hint ≠ "" then
        ["android=new UiSelector().textContains(\"" ++ jsTrim hint ++ "\")",
         "//android.widget.EditText[@hint=\"" ++ jsTrim hint ++ "\"]"]
       else []) ++
      ["(//android.widget.EditText)[" ++ toString (i + 1) ++ "]"] ∧
    (generateInputSelector hint rid i).getLast? =
      some ("(//android.widget.EditText)[" ++ toString (i + 1) ++ "]") := by
  have eh : (hint ≠ "" ∧ jsTrim hint ≠ "") ↔ jsTrim hint ≠ "" :=
    ⟨fun x => x.2, fun x => ⟨jsTrim_ne hint x, x⟩⟩
  refine ⟨by simp [generateInputSelector, eh], ?_⟩
  rw [show generateInputSelector hint rid i =
    ((if rid ≠ "" then
        ["android=new UiSelector().resourceId(\"" ++ rid ++ "\")",
         "//*[@resource-id=\"" ++ rid ++ "\"]"]
       else []) ++
      (if hint ≠ "" ∧ jsTrim hint ≠ "" then
        ["android=new UiSelector().textContains(\"" ++ jsTrim hint ++ "\")",
         "//android.widget.EditText[@hint=\"" ++ jsTrim hint ++ "\"]"]
       else [])) ++
      ["(//android.widget.EditText)[" ++ toString (i + 1) ++ "]"] from by
    simp [generateInputSelector]]
  exact List.getLast?_concat _

/-- A clickable descriptor with neither text nor content description. -/
def noLabelEl : ClickInfo :=
  { index := 0, text := "", tagName := "android.view.View", contentDesc := "",
    resourceId := "app:id/mystery", bounds := none, selectors := [] }

/-- A clickable descriptor with text, no XPath selectors, and a resource id —
its fallback locate goes straight to `driver.$`. -/
def goEl : ClickInfo :=
  { index := 1, text := "Go", tagName := "android.widget.Button", contentDesc := "",
    resourceId := "app:id/go", bounds := none, selectors := [] }

/-- The snapshot that `shotFailOps` produces for the starting screen. -/
def shotFailScreen : DiscScreen :=
  { screenInfo := shotFailInfo, elements := {}, screenshot := none }

/-- C5: every exploration pass processes at most `Math.min(length, 5)`
clickable descriptors, so at most 5 new screens are visited beyond screen 0
(the whole screen list has at most 6 entries); a descriptor with neither text
nor content description is skipped identically — no click, no state change. -/
theorem explore_bounded {σ : Type} (ops : DIOps σ) (s : σ) (el : ClickInfo)
    (rest : List ClickInfo) (st : σ) (ht : el.text = "") (hd : el.contentDesc = "") :
    (∀ (l : List ClickInfo) (st2 : σ), (exploreLoop ops l st2).1.length ≤ l.length) ∧
    (exploreClickableElements ops s).1.length ≤ 6 ∧
    exploreLoop ops (el :: rest) st = exploreLoop ops rest st := by
  have hlen : ∀ (l : List ClickInfo) (st2 : σ), (exploreLoop ops l st2).1.length ≤ l.length := by
    intro l
    induction l with
    | nil => intro st2; simp [exploreLoop]
    | cons x xs ih =>
      intro st2
      simp only [exploreLoop]
      by_cases hc : x.text ≠ "" ∨ x.contentDesc ≠ ""
      · rw [if_pos hc]
        rcases hac : attemptClick ops x st2 with ⟨o, s1⟩
        cases o with
        | none =>
          simp only [hac]
          exact (ih s1).trans (Nat.le_succ _)
        | some scr =>
          simp only [hac, List.length_cons]
          exact Nat.succ_le_succ (ih s1)
      · rw [if_neg hc]
        exact (ih st2).trans (Nat.le_succ _)
  refine ⟨hlen, ?_, ?_⟩
  · rcases hdc : discoverCur ops s with ⟨o, s1⟩
    cases o with
    | none => simp [exploreClickableElements, hdc]
    | some main =>
      simp only [exploreClickableElements, hdc, List.length_cons]
      have h1 : (exploreLoop ops (main.elements.clickable.take 5) s1).1.length ≤ 5 := by
        refine (hlen _ s1).trans ?_
        simp [List.length_take_le]
      omega
  · simp only [exploreLoop]
    rw [if_neg]
    simp [ht, hd]

/-- C5 (witness): the bound and the skip behaviour at a concrete run. -/
theorem explore_bounded_witness :
    (noLabelEl.text = "" ∧ noLabelEl.contentDesc = "") ∧
    exploreLoop shotFailOps [noLabelEl] () = exploreLoop shotFailOps [] () ∧
    (exploreClickableElements shotFailOps ()).1.length ≤ 6 :=
  ⟨⟨rfl, rfl⟩,
    (explore_bounded shotFailOps () noLabelEl [] () rfl rfl).2.2,
    (explore_bounded shotFailOps () noLabelEl [] () rfl rfl).2.1⟩

/-- C6: an exception escaping one descriptor's locate/click/re-snapshot body is
caught by the per-descriptor `catch`: the loop continues with the remaining
descriptors from an unchanged state, returning exactly their screens — the run
never rethrows (the explorer is a total function of the environment). -/
theorem explore_failure_continues {σ : Type} (ops : DIOps σ) (el : ClickInfo)
    (rest : List ClickInfo) (s : σ) (e : String)
    (hsel : el.text ≠ "" ∨ el.contentDesc ≠ "")
    (herr : attemptClickBody ops el s = .error e) :
    exploreLoop ops (el :: rest) s = exploreLoop ops rest s := by
  have hac : attemptClick ops el s = (none, s) := by
    unfold attemptClick
    rw [herr]
  simp only [exploreLoop]
  rw [if_pos hsel, hac]

/-- C6 (witness): a descriptor whose fallback locate rejects is skipped and the
loop result equals that of the remaining descriptors. -/
theorem explore_failure_continues_witness :
    (goEl.text ≠ "" ∨ goEl.contentDesc ≠ "") ∧
    attemptClickBody shotFailOps goEl () = .error "no such element" ∧
    exploreLoop shotFailOps [goEl] () = exploreLoop shotFailOps [] () :=
  ⟨Or.inl (by decide), rfl,
    explore_failure_continues shotFailOps goEl [] () "no such element"
      (Or.inl (by decide)) rfl⟩

/-- C9: the starting snapshot is captured before any click: when the first
`discoverElementsOnCurrentScreen` yields `null` no clicks are attempted at all
(the run returns the post-capture state untouched), and when it yields a
snapshot that snapshot is the first entry of the discovered-screens list. -/
theorem explore_starts_with_snapshot {σ : Type} (ops : DIOps σ) (s : σ) :
    (∀ s1, discoverCur ops s = (none, s1) → exploreClickableElements ops s = ([], s1)) ∧
    (∀ main s1, discoverCur ops s = (some main, s1) →
      ∃ restScreens s2, exploreClickableElements ops s = (main :: restScreens, s2)) := by
  constructor
  · intro s1 h
    simp [exploreClickableElements, h]
  · intro main s1 h
    refine ⟨(exploreLoop ops (main.elements.clickable.take 5) s1).1,
      (exploreLoop ops (main.elements.clickable.take 5) s1).2, ?_⟩
    simp [exploreClickableElements, h]

/-- C9 (witness): the starting snapshot of a concrete run heads the output. -/
theorem explore_starts_with_snapshot_witness :
    discoverCur shotFailOps () = (some shotFailScreen, ()) ∧
    ∃ restScreens s2,
      exploreClickableElements shotFailOps () = (shotFailScreen :: restScreens, s2) :=
  ⟨rfl, (explore_starts_with_snapshot shotFailOps ()).2 shotFailScreen () rfl⟩

/-- C8: when the screenshot save rejects (for any path), `captureScreen` still
returns a full snapshot: the screen info is kept, the per-kind element lists
are exactly the discovery-query results, and the screenshot reference is
`null`; the state is left as it was. -/
theorem captureScreen_shot_failure_tolerated {σ : Type} (ops : DIOps σ) (s : σ)
    (info : ScreenInfo) (hinfo : getCurrentScreenInfo ops s = some info)
    (hshot : ∀ p, ∃ e, ops.saveShot p s = .error e) :
    discoverCur ops s =
      (some { screenInfo := info, elements := discoverElems ops s, screenshot := none }, s) := by
  obtain ⟨e, he⟩ := hshot
    ("./screenshots/" ++ (("screen_" ++ jsLastSeg info.activity) ++ "_" ++
      sanitizeStamp (ops.now s) ++ ".png"))
  simp [discoverCur, hinfo, takeScreenshot, he]

/-- C8 (witness): a concrete session whose screenshot save always rejects. -/
theorem captureScreen_shot_failure_tolerated_witness :
    (getCurrentScreenInfo shotFailOps () = some shotFailInfo ∧
      ∀ p, ∃ e, shotFailOps.saveShot p () = .error e) ∧
    discoverCur shotFailOps () =
      (some { screenInfo := shotFailInfo, elements := discoverElems shotFailOps (),
              screenshot := none }, ()) :=
  ⟨⟨rfl, fun _ => ⟨"disk full", rfl⟩⟩,
    captureScreen_shot_failure_tolerated shotFailOps () shotFailInfo rfl
      (fun _ => ⟨"disk full", rfl⟩)⟩

/-- Every input descriptor collected by the input loop carries the selectors
synthesized from its own hint, resource id and discovery index. -/
theorem collectInputs_selectors {σ : Type} (ops : DIOps σ) (s : σ) :
    ∀ (hs : List Nat) (i : Nat) (info : InputInfo), info ∈ collectInputs ops s i hs →
      info.selectors = generateInputSelector info.hint info.resourceId info.index := by
  intro hs
  induction hs with
  | nil =>
    intro i info hmem
    simp [collectInputs] at hmem
  | cons hd tl ih =>
    intro i info hmem
    simp only [collectInputs] at hmem
    split at hmem
    · exact ih _ info hmem
    · exact ih _ info hmem
    · rcases List.mem_cons.mp hmem with rfl | hmem2
      · rfl
      · exact ih _ info hmem2

/-- C10: every discovered input descriptor can be re-located by at least one
selector: `generateInputSelector` always contains the positional locator for
the 1-based index and is never empty, and every input descriptor produced by a
discovery pass carries exactly those selectors for its own attributes, hence a
non-empty selectors list. -/
theorem input_selectors_nonempty {σ : Type} (ops : DIOps σ) (s : σ)
    (hint rid : String) (i : Nat) (info : InputInfo)
    (hmem : info ∈ (discoverElems ops s).inputs) :
    ("(//android.widget.EditText)[" ++ toString (i + 1) ++ "]") ∈
      generateInputSelector hint rid i ∧
    generateInputSelector hint rid i ≠ [] ∧
    info.selectors = generateInputSelector info.hint info.resourceId info.index ∧
    info.selectors ≠ [] := by
  have hpos : ∀ (h2 r2 : String) (j : Nat),
      ("(//android.widget.EditText)[" ++ toString (j + 1) ++ "]") ∈
        generateInputSelector h2 r2 j := by
    intro h2 r2 j
    simp [generateInputSelector]
  have hsel : info.selectors = generateInputSelector info.hint info.resourceId info.index := by
    simp only [discoverElems] at hmem
    split at hmem
    · simp at hmem
    · split at hmem
      · simp at hmem
      · split at hmem
        · exact collectInputs_selectors ops s _ 0 info hmem
        · split at hmem
          · exact collectInputs_selectors ops s _ 0 info hmem
          · exact collectInputs_selectors ops s _ 0 info hmem
  refine ⟨hpos hint rid i, List.ne_nil_of_mem (hpos hint rid i), hsel, ?_⟩
  rw [hsel]
  exact List.ne_nil_of_mem (hpos info.hint info.resourceId info.index)

/-- C10 (witness): a concrete discovered input descriptor with empty resource
id still has a non-empty selectors list. -/
theorem input_selectors_nonempty_witness :
    oneInputInfo ∈ (discoverElems oneInputOps ()).inputs ∧
    oneInputInfo.selectors ≠ [] :=
  ⟨by decide,
    (input_selectors_nonempty oneInputOps () "" "" 0 oneInputInfo (by decide)).2.2.2⟩

/-- C7 (counterexample): a rejected `TextView` query is NOT caught locally —
`findAllElementTypes` rethrows it, so the image, list, checkbox and custom
kinds are never collected, even though every other query in this session
succeeds. -/
theorem findAllElementTypes_textquery_aborts :
    findAllElementTypes textQueryFailSes = .error "unsupported locator" ∧
    textQueryFailSes.query "//android.widget.Button" = .ok [] ∧
    textQueryFailSes.query "//android.widget.ImageView" = .ok [] ∧
    textQueryFailSes.query "//android.widget.CheckBox" = .ok [] := by
  exact ⟨rfl, rfl, rfl, rfl⟩

/-- The single query expression used by `ElementFinder.findCustomElements`. -/
def customSelectors : List String :=
  ["//*[@resource-id]"]

/-- C7 (amended): for each of the button, input, image, list, checkbox and
custom kinds, a failing structural query is caught locally — failing all of
that kind's queries empties only that kind's result list and leaves every
other finder's result exactly as in the unmodified session — while the text
kind's single `TextView` query is unguarded, so its failure aborts the whole
discovery pass (see the counterexample). -/
theorem kind_query_failure_isolated (ses : EFSession) (e : String) :
    (findButtons (failQueries ses buttonSelectors e) = [] ∧
      findInputFields (failQueries ses buttonSelectors e) = findInputFields ses ∧
      findTextElements (failQueries ses buttonSelectors e) = findTextElements ses ∧
      findImageElements (failQueries ses buttonSelectors e) = findImageElements ses ∧
      findListElements (failQueries ses buttonSelectors e) = findListElements ses ∧
      findCheckboxes (failQueries ses buttonSelectors e) = findCheckboxes ses ∧
      findCustomElements (failQueries ses buttonSelectors e) = findCustomElements ses) ∧
    (findInputFields (failQueries ses inputSelectors e) = [] ∧
      findButtons (failQueries ses inputSelectors e) = findButtons ses ∧
      findTextElements (failQueries ses inputSelectors e) = findTextElements ses ∧
      findImageElements (failQueries ses inputSelectors e) = findImageElements ses ∧
      findListElements (failQueries ses inputSelectors e) = findListElements ses ∧
      findCheckboxes (failQueries ses inputSelectors e) = findCheckboxes ses ∧
      findCustomElements (failQueries ses inputSelectors e) = findCustomElements ses) ∧
    (findImageElements (failQueries ses imageSelectors e) = [] ∧
      findButtons (failQueries ses imageSelectors e) = findButtons ses ∧
      findInputFields (failQueries ses imageSelectors e) = findInputFields ses ∧
      findTextElements (failQueries ses imageSelectors e) = findTextElements ses ∧
      findListElements (failQueries ses imageSelectors e) = findListElements ses ∧
      findCheckboxes (failQueries ses imageSelectors e) = findCheckboxes ses ∧
      findCustomElements (failQueries ses imageSelectors e) = findCustomElements ses) ∧
    (findListElements (failQueries ses listSelectors e) = [] ∧
      findButtons (failQueries ses listSelectors e) = findButtons ses ∧
      findInputFields (failQueries ses listSelectors e) = findInputFields ses ∧
      findTextElements (failQueries ses listSelectors e) = findTextElements ses ∧
      findImageElements (failQueries ses listSelectors e) = findImageElements ses ∧
      findCheckboxes (failQueries ses listSelectors e) = findCheckboxes ses ∧
      findCustomElements (failQueries ses listSelectors e) = findCustomElements ses) ∧
    (findCheckboxes (failQueries ses checkboxSelectors e) = [] ∧
      findButtons (failQueries ses checkboxSelectors e) = findButtons ses ∧
      findInputFields (failQueries ses checkboxSelectors e) = findInputFields ses ∧
      findTextElements (failQueries ses checkboxSelectors e) = findTextElements ses ∧
      findImageElements (failQueries ses checkboxSelectors e) = findImageElements ses ∧
      findListElements (failQueries ses checkboxSelectors e) = findListElements ses ∧
      findCustomElements (failQueries ses checkboxSelectors e) = findCustomElements ses) ∧
    (findCustomElements (failQueries ses customSelectors e) = [] ∧
      findButtons (failQueries ses customSelectors e) = findButtons ses ∧
      findInputFields (failQueries ses customSelectors e) = findInputFields ses ∧
      findTextElements (failQueries ses customSelectors e) = findTextElements ses ∧
      findImageElements (failQueries ses customSelectors e) = findImageElements ses ∧
      findListElements (failQueries ses customSelectors e) = findListElements ses ∧
      findCheckboxes (failQueries ses customSelectors e) = findCheckboxes ses) := by
  refine ⟨⟨?_, ?_, ?_, ?_, ?_, ?_, ?_⟩, ⟨?_, ?_, ?_, ?_, ?_, ?_, ?_⟩, ⟨?_, ?_, ?_, ?_, ?_, ?_, ?_⟩, ⟨?_, ?_, ?_, ?_, ?_, ?_, ?_⟩, ⟨?_, ?_, ?_, ?_, ?_, ?_, ?_⟩, ⟨?_, ?_, ?_, ?_, ?_, ?_, ?_⟩⟩
  · simp [findButtons, runKind, buttonSelectors, failQueries]
  · simp [findInputFields, runKind, inputSelectors, buttonSelectors, failQueries]
  · simp [findTextElements, buttonSelectors, failQueries]
  · simp [findImageElements, runKind, imageSelectors, buttonSelectors, failQueries]
  · simp [findListElements, runKind, listSelectors, buttonSelectors, failQueries]
  · simp [findCheckboxes, runKind, checkboxSelectors, buttonSelectors, failQueries]
  · simp [findCustomElements, customSelectors, buttonSelectors, failQueries]
  · simp [findInputFields, runKind, inputSelectors, failQueries]
  · simp [findButtons, runKind, buttonSelectors, inputSelectors, failQueries]
  · simp [findTextElements, inputSelectors, failQueries]
  · simp [findImageElements, runKind, imageSelectors, inputSelectors, failQueries]
  · simp [findListElements, runKind, listSelectors, inputSelectors, failQueries]
  · simp [findCheckboxes, runKind, checkboxSelectors, inputSelectors, failQueries]
  · simp [findCustomElements, customSelectors, inputSelectors, failQueries]
  · simp [findImageElements, runKind, imageSelectors, failQueries]
  · simp [findButtons, runKind, buttonSelectors, imageSelectors, failQueries]
  · simp [findInputFields, runKind, inputSelectors, imageSelectors, failQueries]
  · simp [findTextElements, imageSelectors, failQueries]
  · simp [findListElements, runKind, listSelectors, imageSelectors, failQueries]
  · simp [findCheckboxes, runKind, checkboxSelectors, imageSelectors, failQueries]
  · simp [findCustomElements, customSelectors, imageSelectors, failQueries]
  · simp [findListElements, runKind, listSelectors, failQueries]
  · simp [findButtons, runKind, buttonSelectors, listSelectors, failQueries]
  · simp [findInputFields, runKind, inputSelectors, listSelectors, failQueries]
  · simp [findTextElements, listSelectors, failQueries]
  · simp [findImageElements, runKind, imageSelectors, listSelectors, failQueries]
  · simp [findCheckboxes, runKind, checkboxSelectors, listSelectors, failQueries]
  · simp [findCustomElements, customSelectors, listSelectors, failQueries]
  · simp [findCheckboxes, runKind, checkboxSelectors, failQueries]
  · simp [findButtons, runKind, buttonSelectors, checkboxSelectors, failQueries]
  · simp [findInputFields, runKind, inputSelectors, checkboxSelectors, failQueries]
  · simp [findTextElements, checkboxSelectors, failQueries]
  · simp [findImageElements, runKind, imageSelectors, checkboxSelectors, failQueries]
  · simp [findListElements, runKind, listSelectors, checkboxSelectors, failQueries]
  · simp [findCustomElements, customSelectors, checkboxSelectors, failQueries]
  · simp [findCustomElements, customSelectors, failQueries]
  · simp [findButtons, runKind, buttonSelectors, customSelectors, failQueries]
  · simp [findInputFields, runKind, inputSelectors, customSelectors, failQueries]
  · simp [findTextElements, customSelectors, failQueries]
  · simp [findImageElements, runKind, imageSelectors, customSelectors, failQueries]
  · simp [findListElements, runKind, listSelectors, customSelectors, failQueries]
  · simp [findCheckboxes, runKind, checkboxSelectors, customSelectors, failQueries]

example : generateSelectors "" "" "" "" = [] := by decide
example : (getElementInfo
    { displayed := fun _ => .error ("f"),
      getTextOf := fun _ => .error ("f"), getAttr := fun _ _ => .error ("f"),
      getRectOf := fun _ => .error ("f") } 0).enabled = true := by decide
example : jsTrim " x " = "x" := by decide
